import Mathlib

/-!
Shallow embedding of the spiritual-gifts-backend authorization, entitlement
and audit layers, translated from the Python source:

* `src/app/neon_auth.py` — identity resolution, context building and the
  access-policy guards (`get_user_context`, `require_org`,
  `get_current_admin`, `get_org_admin`);
* `src/app/services/entitlements.py` — plan bundles (`get_plan_features`);
* `src/app/routers/organizations.py` — quota-gated actions
  (`invite_member`, `bulk_approve_members`);
* `src/app/services/audit_service.py` — `AuditService.log_action`.

SQLAlchemy rows become Lean structures, the database becomes a list of rows,
`HTTPException` becomes an `Except` error value carrying the HTTP status code
and detail string from the source, and handlers that mutate rows return the
new list alongside the response.
-/

/-- Organization row (`src/app/models.py`): the fields the guards and quota
checks read. `plan` is free text resolved against the plan enum. -/
structure OrgRec where
  id : Nat
  slug : String
  plan : String
  is_active : Bool
  is_demo : Bool
deriving DecidableEq, Repr

/-- User row: the fields read by the guards. `org` embeds the SQLAlchemy
`user.organization` relationship; the `org_id` column is recovered as
`orgIdOf`. -/
structure UserRec where
  id : Nat
  email : String
  role : String
  membership_status : String
  org : Option OrgRec
deriving DecidableEq, Repr

/-- The `User.org_id` column: the id of the related organization, if any. -/
def orgIdOf (u : UserRec) : Option Nat :=
  u.org.map (fun o => o.id)

/-- An `HTTPException`: status code and detail string. -/
structure ApiErr where
  status_code : Nat
  detail : String
deriving DecidableEq, Repr

/-- `UserContext` from `neon_auth.py`: user, organization and effective role. -/
structure UserContext where
  user : UserRec
  organization : Option OrgRec
  role : String
deriving DecidableEq, Repr

/-- The hardcoded operator email allowlist in `neon_auth.py`. -/
def allowed_emails : List String := ["tonym415@gmail.com"]

/-- The hardcoded legacy organization slug allowlist in `neon_auth.py`. -/
def allowed_org_slugs : List String := ["neon-evangelion"]

/-- The `is_super_admin` computation shared by `get_current_admin` and
`get_org_admin`: email in the operator allowlist, or (an organization is
present and its slug is in the legacy allowlist). -/
def isSuperAllow (u : UserRec) : Bool :=
  allowed_emails.contains u.email ||
    (match u.org with
     | some o => allowed_org_slugs.contains o.slug
     | none => false)

/-- `get_current_admin` (`neon_auth.py` 214-253): role must be `"admin"`
(checked first), then the operator-email / legacy-slug allowlist check. -/
def get_current_admin (u : UserRec) : Except ApiErr UserRec :=
  if u.role ≠ "admin" then
    .error ⟨403, "Administrative privileges required"⟩
  else if isSuperAllow u then
    .ok u
  else
    .error ⟨403, "System Administrator privileges required"⟩

/-- `get_org_admin` (`neon_auth.py` 255-297): allowlist short-circuit first
(no role test there), then role `"admin"`, then a present organization. -/
def get_org_admin (u : UserRec) : Except ApiErr UserRec :=
  if isSuperAllow u then
    .ok u
  else if u.role ≠ "admin" then
    .error ⟨403, "Administrative privileges required"⟩
  else
    match u.org with
    | none => .error ⟨403, "Organization membership required for admin access"⟩
    | some _ => .ok u

/-- `require_org` (`neon_auth.py` 186-212): organization present, active, and
membership_status `"active"`, in that order. -/
def require_org (u : UserRec) : Except ApiErr OrgRec :=
  match u.org with
  | none => .error ⟨403, "Organization membership required"⟩
  | some o =>
    if ¬ o.is_active then
      .error ⟨403, "Organization is inactive"⟩
    else if u.membership_status ≠ "active" then
      .error ⟨403, "Organization membership is pending approval"⟩
    else
      .ok o

/-- A handler guarded by `require_org` as a FastAPI dependency: the handler
body (a state transformer) runs only if the guard returns the organization,
so a failing guard leaves the state untouched. -/
def run_guarded {σ : Type} (u : UserRec) (handler : σ → σ) (s : σ) :
    Except ApiErr OrgRec × σ :=
  match require_org u with
  | .error e => (.error e, s)
  | .ok o => (.ok o, handler s)

/-- The safe methods exempt from the demo-organization write block
(`neon_auth.py` 161). -/
def safe_methods : List String := ["GET", "HEAD", "OPTIONS"]

/-- The tail of `get_user_context` (`neon_auth.py` 156-175), after the user
row has been loaded: resolve the organization, enforce read-only access for
demo organizations, and build the `UserContext`. -/
def build_user_context (u : UserRec) (method : String) : Except ApiErr UserContext :=
  match u.org with
  | some o =>
    if o.is_demo && !(safe_methods.contains method) then
      .error ⟨403, "This is a demo organization. Write actions are disabled."⟩
    else
      .ok ⟨u, some o, u.role⟩
  | none => .ok ⟨u, none, u.role⟩

/-- Whether an access decision allowed the request. -/
def isAllowed {α : Type} : Except ApiErr α → Bool
  | .ok _ => true
  | .error _ => false

instance {ε α : Type} [DecidableEq ε] [DecidableEq α] : DecidableEq (Except ε α) :=
  fun x y =>
    match x, y with
    | .ok a, .ok b =>
      if h : a = b then .isTrue (by rw [h]) else .isFalse (by intro hh; cases hh; exact h rfl)
    | .ok _, .error _ => .isFalse (by intro h; cases h)
    | .error _, .ok _ => .isFalse (by intro h; cases h)
    | .error e, .error f =>
      if h : e = f then .isTrue (by rw [h]) else .isFalse (by intro hh; cases hh; exact h rfl)

/-- A numeric feature limit from `entitlements.py`: a natural number or the
`float(\x27inf\x27)` sentinel used by the CHURCH tier. -/
inductive NatInf where
  | nat (n : Nat)
  | inf
deriving DecidableEq, Repr

/-- The `FEATURE_AVAILABLE_THEMES` value: a concrete theme list, or the
`"all"` marker used by the CHURCH tier. -/
inductive ThemesVal where
  | themes (l : List String)
  | all
deriving DecidableEq, Repr

/-- A plan's feature bundle (one entry of `TIER_FEATURES`). -/
structure Features where
  users : NatInf
  admins : NatInf
  assessments_per_month : NatInf
  history_days : NatInf
  exports : Bool
  org_support : Bool
  custom_weighting : Bool
  support_level : String
  available_themes : ThemesVal
  theme_analytics : Bool
  custom_org_theming : Bool
deriving DecidableEq, Repr

/-- The `Plan` enum from `entitlements.py`. -/
inductive Plan where
  | FREE
  | INDIVIDUAL
  | MINISTRY
  | CHURCH
deriving DecidableEq, Repr

/-- The `TIER_FEATURES` table from `entitlements.py`, verbatim. -/
def TIER_FEATURES : Plan → Features
  | .FREE =>
    { users := .nat 10, admins := .nat 0, assessments_per_month := .nat 20,
      history_days := .nat 30, exports := false, org_support := false,
      custom_weighting := false, support_level := "none",
      available_themes := .themes ["light", "dark", "synthwave"],
      theme_analytics := false, custom_org_theming := false }
  | .INDIVIDUAL =>
    { users := .nat 50, admins := .nat 1, assessments_per_month := .nat 100,
      history_days := .nat 90, exports := false, org_support := false,
      custom_weighting := false, support_level := "email",
      available_themes := .themes ["light", "dark", "synthwave", "ocean", "forest", "sunset"],
      theme_analytics := false, custom_org_theming := false }
  | .MINISTRY =>
    { users := .nat 100, admins := .nat 5, assessments_per_month := .nat 500,
      history_days := .nat 365, exports := true, org_support := true,
      custom_weighting := false, support_level := "priority",
      available_themes := .themes ["light", "dark", "synthwave", "ocean", "forest", "sunset",
                                   "midnight", "glacier", "autumn", "minimal"],
      theme_analytics := true, custom_org_theming := false }
  | .CHURCH =>
    { users := .inf, admins := .inf, assessments_per_month := .inf,
      history_days := .inf, exports := true, org_support := true,
      custom_weighting := true, support_level := "priority",
      available_themes := .all, theme_analytics := true, custom_org_theming := true }

/-- Python's `str.lower()` restricted to ASCII, which covers every plan name
the enum can match. -/
def lowerString (s : String) : String :=
  ⟨s.data.map Char.toLower⟩

/-- The `Plan(plan_name.lower())` constructor call with its
`except ValueError: plan = Plan.FREE` fallback from `get_plan_features`. -/
def plan_of_string (s : String) : Plan :=
  match lowerString s with
  | "free" => .FREE
  | "individual" => .INDIVIDUAL
  | "ministry" => .MINISTRY
  | "church" => .CHURCH
  | _ => .FREE

/-- `get_plan_features` (`entitlements.py` 90-96): resolve a plan name,
falling back to FREE on unknown names, and return its bundle. -/
def get_plan_features (plan_name : String) : Features :=
  TIER_FEATURES (plan_of_string plan_name)

/-- The comparison `current_member_count >= max_users` from `invite_member`:
a Python int is never `>=` `float(\x27inf\x27)`. -/
def natGE (n : Nat) (m : NatInf) : Bool :=
  match m with
  | .nat k => decide (n ≥ k)
  | .inf => false

/-- `available_slots = max_users - current_active_count` from
`bulk_approve_members`: an integer (possibly negative) or infinity. -/
inductive SlotsVal where
  | int (z : Int)
  | inf
deriving DecidableEq, Repr

/-- The subtraction producing `available_slots`. -/
def slotsSub (m : NatInf) (n : Nat) : SlotsVal :=
  match m with
  | .nat k => .int ((k : Int) - (n : Int))
  | .inf => .inf

/-- The comparison `len(users) > available_slots`: nothing exceeds infinity. -/
def gtSlots (n : Nat) (s : SlotsVal) : Bool :=
  match s with
  | .int z => decide ((n : Int) > z)
  | .inf => false

/-- The quota threshold `current_count + requested > limit` (strict), the
condition both endpoints actually enforce; unlimited tiers always pass. -/
def addReqGT (current requested : Nat) (m : NatInf) : Bool :=
  match m with
  | .nat k => decide (current + requested > k)
  | .inf => false

/-- Rendering of a numeric limit inside an f-string (`float(\x27inf\x27)`
prints as `inf`). -/
def natInfStr : NatInf → String
  | .nat n => toString n
  | .inf => "inf"

/-- Rendering of `available_slots` inside an f-string. -/
def slotsStr : SlotsVal → String
  | .int z => toString z
  | .inf => "inf"

/-- `db.query(User).filter(User.org_id == org.id).count()` from
`invite_member`. -/
def member_count (db : List UserRec) (orgId : Nat) : Nat :=
  (db.filter (fun u => orgIdOf u == some orgId)).length

/-- `db.query(User).filter(User.org_id == org.id,
User.membership_status == "active").count()` from `bulk_approve_members`. -/
def active_member_count (db : List UserRec) (orgId : Nat) : Nat :=
  (db.filter (fun u => orgIdOf u == some orgId && u.membership_status == "active")).length

/-- The tier-limit message of `invite_member`. -/
def invite_tier_msg (plan : String) (max_users : NatInf) : String :=
  "Your " ++ plan ++ " plan is limited to " ++ natInfStr max_users ++
    " members. Please upgrade to invite more."

/-- `invite_member` (`organizations.py` 204-263): admin check, member-count
quota gate, duplicate-email checks, then the acceptance message. The audit
call and the email TODO do not affect the response. -/
def invite_member (db : List UserRec) (org : OrgRec) (cu : UserRec)
    (invite_email : String) : Except ApiErr String :=
  if cu.role ≠ "admin" then
    .error ⟨403, "Only organization admins can invite members"⟩
  else
    let max_users := (get_plan_features org.plan).users
    let current_member_count := member_count db org.id
    if natGE current_member_count max_users then
      .error ⟨403, invite_tier_msg org.plan max_users⟩
    else
      match db.find? (fun u => u.email == invite_email) with
      | some existing =>
        if orgIdOf existing == some org.id then
          .error ⟨409, "User is already a member of this organization"⟩
        else
          .error ⟨409, "User is already a member of another organization"⟩
      | none => .ok ("Invitation sent to " ++ invite_email)

/-- The eligible targets of `bulk_approve_members`: requested ids, same
organization, membership pending. -/
def eligible_pending (db : List UserRec) (orgId : Nat) (ids : List Nat) : List UserRec :=
  db.filter (fun u =>
    ids.contains u.id && orgIdOf u == some orgId && u.membership_status == "pending")

/-- The per-row effect of the approval loop: eligible rows become active,
every other row is untouched. -/
def approve_one (orgId : Nat) (ids : List Nat) (u : UserRec) : UserRec :=
  if ids.contains u.id && orgIdOf u == some orgId && u.membership_status == "pending" then
    { u with membership_status := "active" }
  else
    u

/-- The tier-limit message of `bulk_approve_members`. -/
def bulk_tier_msg (slots : SlotsVal) (attempted : Nat) : String :=
  "Tier limit reached. You only have " ++ slotsStr slots ++
    " slots available, but tried to approve " ++ toString attempted ++ " users."

/-- Response body of `bulk_approve_members` on success. -/
structure BulkResp where
  approved_count : Nat
  message : String
deriving DecidableEq, Repr

/-- `bulk_approve_members` (`organizations.py` 553-601): admin check, slot
computation, eligible-target query, early return on an empty batch, tier
gate, then the approval loop followed by the commit. The pair carries the
response and the database after the request. -/
def bulk_approve_members (db : List UserRec) (org : OrgRec) (cu : UserRec)
    (ids : List Nat) : Except ApiErr BulkResp × List UserRec :=
  if cu.role ≠ "admin" then
    (.error ⟨403, "Only admins can approve members"⟩, db)
  else
    let max_users := (get_plan_features org.plan).users
    let current_active_count := active_member_count db org.id
    let available_slots := slotsSub max_users current_active_count
    let users := eligible_pending db org.id ids
    if users.isEmpty then
      (.ok ⟨0, "No pending members found to approve"⟩, db)
    else if gtSlots users.length available_slots then
      (.error ⟨403, bulk_tier_msg available_slots users.length⟩, db)
    else
      (.ok ⟨users.length, "Successfully approved " ++ toString users.length ++ " members"⟩,
       db.map (approve_one org.id ids))

/-- A decoded JWT payload: the `sub` claim, when present. -/
structure TokenPayload where
  sub : Option String
deriving DecidableEq, Repr

/-- Digit-run parser backing `py_int`. -/
def parse_digits (cs : List Char) : Option Nat :=
  if cs.isEmpty then none
  else
    cs.foldl
      (fun acc c =>
        acc.bind (fun n => if c.isDigit then some (n * 10 + (c.toNat - 48)) else none))
      (some 0)

/-- Python's `int(s)` on a string, as used on the token subject: an optional
leading minus sign followed by decimal digits; anything else raises
`ValueError` (the `none` case). -/
def py_int (s : String) : Option Int :=
  match s.data with
  | '-' :: rest => (parse_digits rest).map (fun n => -(n : Int))
  | cs => (parse_digits cs).map (fun n => (n : Int))

/-- The identity-resolution prefix of `get_user_context`
(`neon_auth.py` 108-149) after a token was supplied: `verify_token`
(modelled by the already-decoded `decoded` argument: `jose.jwt.decode`
either yields a payload or raises `JWTError`), `sub` extraction, the
`int(sub)` parse, and the user load (`lookup`, modelling
`db.query(User).filter(User.id == user_id).first()`). -/
def resolve_identity (decoded : Except Unit TokenPayload)
    (lookup : Int → Option UserRec) : Except ApiErr UserRec :=
  match decoded with
  | .error _ => .error ⟨401, "Could not validate credentials"⟩
  | .ok payload =>
    match payload.sub with
    | none => .error ⟨401, "Could not validate credentials"⟩
    | some s =>
      match py_int s with
      | none => .error ⟨401, "Could not validate credentials"⟩
      | some user_id =>
        match lookup user_id with
        | none => .error ⟨401, "User not found"⟩
        | some u => .ok u

/-- A Python value placed in the audit `details` dict. `unencodable` stands
for an object `fastapi.encoders.jsonable_encoder` cannot convert (it raises
`ValueError` after `dict()` and `vars()` both fail, e.g. a bare
`object()`). -/
inductive PyVal where
  | str (s : String)
  | num (n : Int)
  | unencodable
deriving DecidableEq, Repr

/-- A JSON-safe value produced by the encoder. -/
inductive JsonVal where
  | str (s : String)
  | num (n : Int)
deriving DecidableEq, Repr

/-- Encoding of a single `details` value, as `jsonable_encoder` treats it. -/
def encode_val : PyVal → Except String JsonVal
  | .str s => .ok (.str s)
  | .num n => .ok (.num n)
  | .unencodable => .error "Cannot encode object"

/-- `fastapi.encoders.jsonable_encoder` on a `details` dict: encodes every
value, raising (returning `.error`) as soon as one value is unencodable. -/
def jsonable_encoder (d : List (String × PyVal)) :
    Except String (List (String × JsonVal)) :=
  d.mapM (fun kv => (encode_val kv.2).map (fun v => (kv.1, v)))

/-- An `AuditLog` row as built by `AuditService.log_action`. -/
structure AuditRec where
  actor_id : Nat
  org_id : Option Nat
  action : String
  resource : String
  details : List (String × JsonVal)
deriving DecidableEq, Repr

/-- A `LogEntry` row as built by `AuditService.log_action`. -/
structure LogEntryRec where
  level : String
  event : String
  user_id : Nat
  user_email : String
  org_id : Option Nat
  context : List (String × JsonVal)
  path : String
  method : String
deriving DecidableEq, Repr

/-- The caller's SQLAlchemy session: rows staged with `db.add`, plus whether
`db.commit()` has run on it. -/
structure StagedSession where
  staged_audits : List AuditRec
  staged_logs : List LogEntryRec
  committed : Bool
deriving DecidableEq, Repr

/-- `AuditService.log_action` (`audit_service.py` 8-99):
`safe_details = jsonable_encoder(details) if details else {}` (no exception
handler around the encoder), then `db.add` of the `AuditLog` row and of the
redundant `LogEntry` row; the function never calls `db.commit()`. An
encoder error propagates as the `Except.error` case. -/
def log_action (db : StagedSession) (user : UserRec)
    (action target_type target_id : String)
    (details : Option (List (String × PyVal))) (level : String) :
    Except String (StagedSession × AuditRec) :=
  let encoded : Except String (List (String × JsonVal)) :=
    match details with
    | none => .ok []
    | some d => if d.isEmpty then .ok [] else jsonable_encoder d
  match encoded with
  | .error e => .error e
  | .ok safe_details =>
    let audit : AuditRec :=
      ⟨user.id, orgIdOf user, action, target_type ++ ":" ++ target_id, safe_details⟩
    let system_log : LogEntryRec :=
      ⟨level, action, user.id, user.email, orgIdOf user, safe_details, "audit_service", "AUDIT"⟩
    .ok ({ staged_audits := db.staged_audits ++ [audit],
           staged_logs := db.staged_logs ++ [system_log],
           committed := db.committed }, audit)

/-- Whether `invite_member` answered with its tier-limit `Forbidden` (the
message stating the plan's limit). -/
def inviteDeniedForQuota (db : List UserRec) (org : OrgRec) (cu : UserRec)
    (invite_email : String) : Bool :=
  decide (invite_member db org cu invite_email =
    .error ⟨403, invite_tier_msg org.plan (get_plan_features org.plan).users⟩)

/-- Whether `bulk_approve_members` answered with its tier-limit `Forbidden`
(the message stating the available slots and the attempted count). -/
def bulkDeniedForQuota (db : List UserRec) (org : OrgRec) (cu : UserRec)
    (ids : List Nat) : Bool :=
  decide ((bulk_approve_members db org cu ids).1 =
    .error ⟨403,
      bulk_tier_msg
        (slotsSub (get_plan_features org.plan).users (active_member_count db org.id))
        (eligible_pending db org.id ids).length⟩)

/-! Concrete rows used by the witness and counterexample theorems below. -/

/-- A legacy-allowlist organization. -/
def legacyOrg : OrgRec := ⟨3, "neon-evangelion", "free", true, false⟩

/-- An admin of the legacy organization whose email is not allowlisted. -/
def c1_user : UserRec := ⟨7, "pastor@legacy.org", "admin", "active", some legacyOrg⟩

/-- A non-admin user of an ordinary organization. -/
def c1_stranger : UserRec := ⟨8, "visitor@example.com", "user", "active", some ⟨2, "acme", "free", true, false⟩⟩

/-- A user whose role field is literally `"super_admin"`, outside both
allowlists. -/
def c2_user : UserRec := ⟨5, "someone@example.com", "super_admin", "active", some ⟨2, "acme", "free", true, false⟩⟩

/-- A pending, role-`"user"` member of the legacy organization, which is even
inactive. -/
def c3_user : UserRec := ⟨9, "newbie@legacy.org", "user", "pending", some ⟨3, "neon-evangelion", "free", false, false⟩⟩

/-- A demo organization. -/
def c4_org : OrgRec := ⟨4, "demo", "free", true, true⟩

/-- An admin member of the demo organization. -/
def c4_user : UserRec := ⟨11, "vip@demo.example", "admin", "active", some c4_org⟩

/-- A free-plan organization at 9 members. -/
def c5_org : OrgRec := ⟨1, "acme", "free", true, false⟩

/-- The admin of `c5_org`. -/
def c5_admin : UserRec := ⟨1, "boss@acme.test", "admin", "active", some c5_org⟩

/-- Nine members of `c5_org` (the free plan allows 10). -/
def c5_db : List UserRec :=
  [c5_admin,
   ⟨2, "m2@acme.test", "user", "active", some c5_org⟩,
   ⟨3, "m3@acme.test", "user", "active", some c5_org⟩,
   ⟨4, "m4@acme.test", "user", "active", some c5_org⟩,
   ⟨5, "m5@acme.test", "user", "active", some c5_org⟩,
   ⟨6, "m6@acme.test", "user", "active", some c5_org⟩,
   ⟨7, "m7@acme.test", "user", "pending", some c5_org⟩,
   ⟨8, "m8@acme.test", "user", "active", some c5_org⟩,
   ⟨9, "m9@acme.test", "user", "active", some c5_org⟩]

/-- A free-plan organization that is over its user limit. -/
def c6_org : OrgRec := ⟨1, "bigco", "free", true, false⟩

/-- The admin of `c6_org`. -/
def c6_admin : UserRec := ⟨1, "boss@bigco.test", "admin", "active", some c6_org⟩

/-- Eleven active members of `c6_org` (one over the free-plan limit of 10). -/
def c6_db : List UserRec :=
  [c6_admin,
   ⟨2, "w2@bigco.test", "user", "active", some c6_org⟩,
   ⟨3, "w3@bigco.test", "user", "active", some c6_org⟩,
   ⟨4, "w4@bigco.test", "user", "active", some c6_org⟩,
   ⟨5, "w5@bigco.test", "user", "active", some c6_org⟩,
   ⟨6, "w6@bigco.test", "user", "active", some c6_org⟩,
   ⟨7, "w7@bigco.test", "user", "active", some c6_org⟩,
   ⟨8, "w8@bigco.test", "user", "active", some c6_org⟩,
   ⟨9, "w9@bigco.test", "user", "active", some c6_org⟩,
   ⟨10, "w10@bigco.test", "user", "active", some c6_org⟩,
   ⟨11, "w11@bigco.test", "user", "active", some c6_org⟩]

/-- A pending member of an active organization. -/
def c7_user : UserRec := ⟨12, "applicant@acme.test", "user", "pending", some ⟨2, "acme", "free", true, false⟩⟩

/-- A user store with no rows: every id lookup misses. -/
def c9_lookup : Int → Option UserRec := fun _ => none

/-- An empty, uncommitted session. -/
def c10_session : StagedSession := ⟨[], [], false⟩

/-- The acting user for the audit counterexample. -/
def c10_user : UserRec := ⟨1, "x@y.z", "admin", "active", none⟩

/-- A small free-plan organization with spare capacity. -/
def c6b_org : OrgRec := ⟨2, "smallco", "free", true, false⟩

/-- The admin of `c6b_org`. -/
def c6b_admin : UserRec := ⟨21, "boss@smallco.test", "admin", "active", some c6b_org⟩

/-- One active admin and one pending member of `c6b_org`. -/
def c6b_db : List UserRec :=
  [c6b_admin, ⟨22, "p@smallco.test", "user", "pending", some c6b_org⟩]

/-! Theorems. -/

/-- Characterization of the shared `is_super_admin` allowlist computation. -/
theorem superAllow_eq (u : UserRec) :
    isSuperAllow u = true ↔
      (u.email ∈ allowed_emails ∨ ∃ o, u.org = some o ∧ o.slug ∈ allowed_org_slugs) := by
  unfold isSuperAllow
  cases hu : u.org with
  | none => simp [hu, List.elem_iff]
  | some o => simp [hu, List.elem_iff]

/-- C1: `get_current_admin` succeeds exactly when the role is `"admin"` and
the operator-email or legacy-slug allowlist matches; a role failure is
reported before (and regardless of) the allowlist, and a legacy-slug admin
passes without an allowlisted email. -/
theorem get_current_admin_correct (u : UserRec) :
    (isAllowed (get_current_admin u) = true ↔
      (u.role = "admin" ∧
        (u.email ∈ allowed_emails ∨ ∃ o, u.org = some o ∧ o.slug ∈ allowed_org_slugs)))
    ∧ (u.role ≠ "admin" →
        get_current_admin u = .error ⟨403, "Administrative privileges required"⟩)
    ∧ (u.role = "admin" → u.email ∉ allowed_emails →
        (∃ o, u.org = some o ∧ o.slug ∈ allowed_org_slugs) →
        get_current_admin u = .ok u) := by
  refine ⟨?_, ?_, ?_⟩
  · rw [← superAllow_eq]
    unfold get_current_admin isAllowed
    by_cases hr : u.role = "admin" <;> by_cases hs : isSuperAllow u = true <;>
      simp [hr, hs]
  · intro hr
    unfold get_current_admin
    simp [hr]
  · intro hr he ho
    have hs : isSuperAllow u = true := (superAllow_eq u).mpr (Or.inr ho)
    unfold get_current_admin
    simp [hr, hs]

/-- C1 witness: the legacy-slug admin passes; a role-`"user"` visitor is
rejected with the role error. -/
theorem get_current_admin_correct_witness :
    get_current_admin c1_user = .ok c1_user ∧
    get_current_admin c1_stranger = .error ⟨403, "Administrative privileges required"⟩ :=
  ⟨(get_current_admin_correct c1_user).2.2 rfl (by decide) ⟨legacyOrg, rfl, by decide⟩,
   (get_current_admin_correct c1_stranger).2.1 (by decide)⟩

/-- C2 (amended): `get_org_admin` allows exactly when the operator-email or
legacy-slug allowlist matches, or the role is `"admin"` with an organization
present; the short-circuit tests only the allowlists, and no `"super_admin"`
role test exists anywhere in the guard. -/
theorem get_org_admin_allow_iff (u : UserRec) :
    isAllowed (get_org_admin u) = true ↔
      ((u.email ∈ allowed_emails ∨ ∃ o, u.org = some o ∧ o.slug ∈ allowed_org_slugs) ∨
        (u.role = "admin" ∧ u.org ≠ none)) := by
  rw [← superAllow_eq]
  unfold get_org_admin isAllowed
  by_cases hs : isSuperAllow u = true
  · simp [hs]
  · by_cases hr : u.role = "admin"
    · cases hu : u.org <;> simp [hs, hr, hu]
    · cases hu : u.org <;> simp [hs, hr, hu]

/-- C2 counterexample: a user whose role field is literally `"super_admin"`,
with an organization outside the legacy allowlist and a non-allowlisted
email, is rejected by `get_org_admin` with the role error — the claimed
`super_admin` short-circuit does not exist in the code. -/
theorem get_org_admin_super_role_rejected :
    c2_user.role = "super_admin" ∧
    get_org_admin c2_user = .error ⟨403, "Administrative privileges required"⟩ := by
  decide

/-- C3: an allowlist match makes `get_org_admin` return the user at once —
for every role, membership status and organization state. -/
theorem get_org_admin_allowlist_short_circuit (u : UserRec)
    (h : u.email ∈ allowed_emails ∨ ∃ o, u.org = some o ∧ o.slug ∈ allowed_org_slugs) :
    get_org_admin u = .ok u := by
  have hs : isSuperAllow u = true := (superAllow_eq u).mpr h
  unfold get_org_admin
  simp [hs]

/-- C3 witness: a pending, role-`"user"` member of the (inactive!) legacy
organization passes the org-admin guard. -/
theorem get_org_admin_allowlist_short_circuit_witness :
    c3_user.role = "user" ∧ c3_user.membership_status = "pending" ∧
    get_org_admin c3_user = .ok c3_user :=
  ⟨rfl, rfl,
   get_org_admin_allowlist_short_circuit c3_user
     (Or.inr ⟨⟨3, "neon-evangelion", "free", false, false⟩, rfl, by decide⟩)⟩

/-- C4: for a member of an `is_demo` organization, context building fails
`Forbidden` on every method outside GET/HEAD/OPTIONS — whatever the user's
role — and succeeds on every safe method. -/
theorem demo_org_read_only (u : UserRec) (o : OrgRec) (m : String)
    (horg : u.org = some o) (hdemo : o.is_demo = true) :
    (m ∉ safe_methods →
      build_user_context u m =
        .error ⟨403, "This is a demo organization. Write actions are disabled."⟩)
    ∧ (m ∈ safe_methods → build_user_context u m = .ok ⟨u, some o, u.role⟩) := by
  unfold build_user_context
  rw [horg]
  constructor
  · intro hm
    simp [hdemo, hm]
  · intro hm
    simp [hm]

/-- C4 witness: an admin of a demo organization is blocked on POST and passes
on GET. -/
theorem demo_org_read_only_witness :
    build_user_context c4_user "POST" =
      .error ⟨403, "This is a demo organization. Write actions are disabled."⟩ ∧
    build_user_context c4_user "GET" = .ok ⟨c4_user, some c4_org, c4_user.role⟩ :=
  ⟨(demo_org_read_only c4_user c4_org "POST" rfl rfl).1 (by decide),
   (demo_org_read_only c4_user c4_org "GET" rfl rfl).2 (by decide)⟩

/-- C7: a guarded handler never runs when `require_org` rejects: a
non-`"active"` membership yields a 403 and an unchanged state, as do a
missing organization and an inactive organization; the guard passes exactly
when the organization is present, active, and the membership is active. -/
theorem require_org_blocks (u : UserRec) {σ : Type} (handler : σ → σ) (s : σ) :
    (u.membership_status ≠ "active" →
      (∃ d, (run_guarded u handler s).1 = .error ⟨403, d⟩) ∧
      (run_guarded u handler s).2 = s)
    ∧ (u.org = none →
        run_guarded u handler s = (.error ⟨403, "Organization membership required"⟩, s))
    ∧ (∀ o, u.org = some o → o.is_active = false →
        run_guarded u handler s = (.error ⟨403, "Organization is inactive"⟩, s))
    ∧ (isAllowed (require_org u) = true ↔
        ∃ o, u.org = some o ∧ o.is_active = true ∧ u.membership_status = "active") := by
  refine ⟨?_, ?_, ?_, ?_⟩
  · intro hms
    unfold run_guarded require_org
    cases hu : u.org with
    | none => exact ⟨⟨"Organization membership required", rfl⟩, rfl⟩
    | some o =>
      by_cases ha : o.is_active = true
      · simp [ha, hms]
      · simp [ha]
  · intro hu
    unfold run_guarded require_org
    rw [hu]
  · intro o hu ha
    unfold run_guarded require_org
    rw [hu]
    simp [ha]
  · unfold require_org isAllowed
    cases hu : u.org with
    | none => simp
    | some o =>
      by_cases ha : o.is_active = true <;>
        by_cases hms : u.membership_status = "active" <;> simp [ha, hms]

/-- C7 witness: a pending member of an active organization is rejected with a
403 and the handler state is untouched. -/
theorem require_org_blocks_witness :
    (∃ d, (run_guarded c7_user (fun n => n + 1) (0 : Nat)).1 = .error ⟨403, d⟩) ∧
    (run_guarded c7_user (fun n => n + 1) (0 : Nat)).2 = 0 :=
  (require_org_blocks c7_user (fun n => n + 1) 0).1 (by decide)

/-- C8: `get_plan_features` always returns one of the plan bundles (never an
error), matches plan names case-insensitively (it depends only on the
lowercased name), and maps every unknown name — the empty string included —
to exactly the FREE bundle. -/
theorem get_plan_features_total (s t : String) :
    (∃ p : Plan, get_plan_features s = TIER_FEATURES p)
    ∧ (lowerString s = lowerString t → get_plan_features s = get_plan_features t)
    ∧ (lowerString s ∉ (["free", "individual", "ministry", "church"] : List String) →
        get_plan_features s = TIER_FEATURES Plan.FREE)
    ∧ get_plan_features "" = TIER_FEATURES Plan.FREE := by
  refine ⟨⟨plan_of_string s, rfl⟩, ?_, ?_, rfl⟩
  · intro h
    unfold get_plan_features plan_of_string
    rw [h]
  · intro h
    unfold get_plan_features plan_of_string
    split <;> simp_all

/-- C8 witness: an unknown plan name yields the FREE bundle and matching is
case-insensitive. -/
theorem get_plan_features_total_witness :
    get_plan_features "Enterprise" = TIER_FEATURES Plan.FREE ∧
    get_plan_features "CHURCH" = get_plan_features "church" :=
  ⟨(get_plan_features_total "Enterprise" "").2.2.1 (by decide),
   (get_plan_features_total "CHURCH" "church").2.1 (by decide)⟩

/-- The invite gate `current >= limit` is the strict threshold
`current + 1 > limit`. -/
theorem natGE_eq_addReqGT_one (n : Nat) (m : NatInf) :
    natGE n m = addReqGT n 1 m := by
  cases m with
  | nat k =>
    simp only [natGE, addReqGT]
    rw [decide_eq_decide]
    omega
  | inf => rfl

/-- The bulk gate `requested > limit - current` is the strict threshold
`current + requested > limit`. -/
theorem gtSlots_slotsSub (a n : Nat) (m : NatInf) :
    gtSlots n (slotsSub m a) = addReqGT a n m := by
  cases m with
  | nat k =>
    simp only [gtSlots, slotsSub, addReqGT]
    rw [decide_eq_decide]
    omega
  | inf => rfl

/-- C5 (amended): both quota-consuming actions deny with their tier-limit
`Forbidden` exactly when `current_count + requested > limit` (strictly
greater, not `>=`): the invite gate compares `current >= limit` (one seat
left still admits an invite) and the bulk gate compares
`requested > limit - current_active`. -/
theorem quota_threshold_strict (db : List UserRec) (org : OrgRec) (cu : UserRec)
    (email : String) (ids : List Nat) (hrole : cu.role = "admin") :
    (inviteDeniedForQuota db org cu email =
      addReqGT (member_count db org.id) 1 (get_plan_features org.plan).users)
    ∧ (1 ≤ (eligible_pending db org.id ids).length →
        bulkDeniedForQuota db org cu ids =
          addReqGT (active_member_count db org.id)
            (eligible_pending db org.id ids).length (get_plan_features org.plan).users) := by
  constructor
  · rw [← natGE_eq_addReqGT_one]
    unfold inviteDeniedForQuota invite_member
    simp only [hrole, ne_eq, not_true_eq_false, if_false, ite_false]
    by_cases hq : natGE (member_count db org.id) (get_plan_features org.plan).users = true
    · simp [hq]
    · cases hf : db.find? (fun u => u.email == email) with
      | none => simp [hq, hf]
      | some ex =>
        by_cases ho : (orgIdOf ex == some org.id) = true <;> simp [hq, hf, ho]
  · intro hN
    rw [← gtSlots_slotsSub]
    unfold bulkDeniedForQuota bulk_approve_members
    simp only [hrole, ne_eq, not_true_eq_false, if_false, ite_false]
    have hne : (eligible_pending db org.id ids).isEmpty = false := by
      cases he : eligible_pending db org.id ids with
      | nil => rw [he] at hN; simp at hN
      | cons a l => simp
    by_cases hg : gtSlots (eligible_pending db org.id ids).length
        (slotsSub (get_plan_features org.plan).users (active_member_count db org.id)) = true <;>
      simp [hne, hg]

/-- C5 witness: with the free plan at 9 of 10 members, `current + 1 > 10`
fails and the invite is not quota-denied. -/
theorem quota_threshold_strict_witness :
    inviteDeniedForQuota c5_db c5_org c5_admin "new@acme.test" = false := by
  have h := (quota_threshold_strict c5_db c5_org c5_admin "new@acme.test" [] rfl).1
  rw [h]
  decide

/-- C5 counterexample: 9 members on the free plan (limit 10) satisfy the
claimed denial condition `current_count + requested >= limit`, yet the
invite succeeds. -/
theorem invite_quota_claim_false :
    member_count c5_db c5_org.id = 9 ∧
    (get_plan_features c5_org.plan).users = NatInf.nat 10 ∧
    9 + 1 ≥ 10 ∧
    invite_member c5_db c5_org c5_admin "new@acme.test" =
      .ok "Invitation sent to new@acme.test" := by
  decide

/-- C6 (amended): bulk approval is all-or-nothing for every batch with at
least one eligible (pending, same-organization) target: capacity short →
`Forbidden` stating the shortfall and an unchanged database; capacity
sufficient → exactly the eligible rows flip to `"active"` (every other row
is untouched). An empty eligible batch, however, returns success with
`approved_count` 0 even when remaining capacity is negative. -/
theorem bulk_approve_all_or_nothing (db : List UserRec) (org : OrgRec) (cu : UserRec)
    (ids : List Nat) (hrole : cu.role = "admin") :
    (1 ≤ (eligible_pending db org.id ids).length →
      gtSlots (eligible_pending db org.id ids).length
        (slotsSub (get_plan_features org.plan).users (active_member_count db org.id)) = true →
      bulk_approve_members db org cu ids =
        (.error ⟨403,
          bulk_tier_msg
            (slotsSub (get_plan_features org.plan).users (active_member_count db org.id))
            (eligible_pending db org.id ids).length⟩, db))
    ∧ (1 ≤ (eligible_pending db org.id ids).length →
      gtSlots (eligible_pending db org.id ids).length
        (slotsSub (get_plan_features org.plan).users (active_member_count db org.id)) = false →
      bulk_approve_members db org cu ids =
        (.ok ⟨(eligible_pending db org.id ids).length,
          "Successfully approved " ++ toString (eligible_pending db org.id ids).length ++ " members"⟩,
         db.map (approve_one org.id ids)))
    ∧ ((eligible_pending db org.id ids).length = 0 →
      bulk_approve_members db org cu ids =
        (.ok ⟨0, "No pending members found to approve"⟩, db))
    ∧ (∀ u : UserRec, ids.contains u.id = true → orgIdOf u = some org.id →
        u.membership_status = "pending" →
        approve_one org.id ids u = { u with membership_status := "active" })
    ∧ (∀ u : UserRec,
        ids.contains u.id = false ∨ orgIdOf u ≠ some org.id ∨ u.membership_status ≠ "pending" →
        approve_one org.id ids u = u) := by
  have hne : ∀ h : 1 ≤ (eligible_pending db org.id ids).length,
      (eligible_pending db org.id ids).isEmpty = false := by
    intro h
    cases he : eligible_pending db org.id ids with
    | nil => rw [he] at h; simp at h
    | cons a l => simp
  refine ⟨?_, ?_, ?_, ?_, ?_⟩
  · intro hN hg
    unfold bulk_approve_members
    simp [hrole, hne hN, hg]
  · intro hN hg
    unfold bulk_approve_members
    simp [hrole, hne hN, hg]
  · intro hN
    have he : (eligible_pending db org.id ids).isEmpty = true := by
      cases he : eligible_pending db org.id ids with
      | nil => simp
      | cons a l => rw [he] at hN; simp at hN
    unfold bulk_approve_members
    simp [hrole, he]
  · intro u hc ho hm
    have hmem : u.id ∈ ids := by simpa using hc
    unfold approve_one
    simp [hmem, ho, hm]
  · intro u hdis
    unfold approve_one
    rcases hdis with h | h | h
    · have hmem : u.id ∉ ids := by simpa using h
      simp [hmem]
    · simp [h]
    · simp [h]

/-- C6 witness: one pending target, nine free slots — the batch is applied
and exactly the pending row becomes active. -/
theorem bulk_approve_all_or_nothing_witness :
    bulk_approve_members c6b_db c6b_org c6b_admin [22] =
      (.ok ⟨1, "Successfully approved 1 members"⟩,
       [c6b_admin, ⟨22, "p@smallco.test", "user", "active", some c6b_org⟩]) := by
  have h := (bulk_approve_all_or_nothing c6b_db c6b_org c6b_admin [22] rfl).2.1
    (by decide) (by decide)
  rw [h]
  decide

/-- C6 counterexample: a free-plan organization with 11 active members has
negative remaining capacity, so the code's shortage comparison
`N > available_slots` holds even for an empty batch (N = 0 > -1), yet the
endpoint returns success instead of the `Forbidden` the claim requires for
`C < N`. -/
theorem bulk_approve_empty_batch_claim_false :
    (eligible_pending c6_db c6_org.id [999]).length = 0 ∧
    slotsSub (get_plan_features c6_org.plan).users (active_member_count c6_db c6_org.id) =
      SlotsVal.int (-1) ∧
    gtSlots (eligible_pending c6_db c6_org.id [999]).length
      (slotsSub (get_plan_features c6_org.plan).users (active_member_count c6_db c6_org.id)) = true ∧
    bulk_approve_members c6_db c6_org c6_admin [999] =
      (.ok ⟨0, "No pending members found to approve"⟩, c6_db) := by
  decide

/-- C9 (amended): an invalid/expired token and a valid token whose subject
matches no user both fail with status 401, but with different detail
strings: the former with the generic credentials message, the latter with
`"User not found"` — every failure of the resolver carries status 401. -/
theorem resolve_identity_messages (lookup : Int → Option UserRec)
    (p : TokenPayload) (s : String) (uid : Int)
    (hsub : p.sub = some s) (hparse : py_int s = some uid)
    (hmiss : lookup uid = none) :
    resolve_identity (.error ()) lookup =
      .error ⟨401, "Could not validate credentials"⟩
    ∧ resolve_identity (.ok p) lookup = .error ⟨401, "User not found"⟩
    ∧ (∀ decoded d, resolve_identity decoded lookup = .error d →
        d.status_code = 401) := by
  refine ⟨rfl, ?_, ?_⟩
  · simp [resolve_identity, hsub, hparse, hmiss]
  · intro decoded d h
    unfold resolve_identity at h
    repeat' split at h
    all_goals first
    | exact h ▸ rfl
    | (cases h <;> rfl)

/-- C9 witness: with an empty user store, a token with subject `"7"` fails
with the deleted-user message. -/
theorem resolve_identity_messages_witness :
    resolve_identity (.ok ⟨some "7"⟩) c9_lookup = .error ⟨401, "User not found"⟩ :=
  (resolve_identity_messages c9_lookup ⟨some "7"⟩ "7" 7 rfl (by decide) rfl).2.1

/-- C9 counterexample: the two failures share the status code but not the
message, so the response does distinguish a bad token from a deleted
user. -/
theorem resolve_identity_distinguishes :
    resolve_identity (.error ()) c9_lookup =
      .error ⟨401, "Could not validate credentials"⟩ ∧
    resolve_identity (.ok ⟨some "7"⟩) c9_lookup = .error ⟨401, "User not found"⟩ ∧
    ("User not found" : String) ≠ "Could not validate credentials" := by
  decide

/-- C10 (amended): `log_action` only stages: on success the audit row and
one log row are appended to the caller's session, whose committed flag is
never touched; an absent or empty details dict is recorded as an empty
details object; but a details dict the encoder cannot serialize makes
`log_action` itself fail — the encoder is not wrapped in an exception
handler. -/
theorem log_action_stages_no_commit (db : StagedSession) (u : UserRec)
    (a tt tid : String) (dts : Option (List (String × PyVal))) (lvl : String) :
    (∀ db' rec, log_action db u a tt tid dts lvl = .ok (db', rec) →
      db'.committed = db.committed ∧
      db'.staged_audits = db.staged_audits ++ [rec] ∧
      ∃ sl, db'.staged_logs = db.staged_logs ++ [sl] ∧ sl.context = rec.details)
    ∧ ((dts = none ∨ dts = some []) →
      ∃ db' rec, log_action db u a tt tid dts lvl = .ok (db', rec) ∧
        rec.details = [])
    ∧ (∀ d e, dts = some d → d ≠ [] → jsonable_encoder d = .error e →
      log_action db u a tt tid dts lvl = .error e) := by
  refine ⟨?_, ?_, ?_⟩
  · intro db' rec h
    unfold log_action at h
    cases dts with
    | none =>
      simp only [] at h
      cases h
      exact ⟨rfl, rfl, ⟨_, rfl, rfl⟩⟩
    | some d =>
      by_cases hd : d.isEmpty = true
      · simp only [hd, if_true, ite_true] at h
        cases h
        exact ⟨rfl, rfl, ⟨_, rfl, rfl⟩⟩
      · simp only [hd, if_false, ite_false] at h
        cases he : jsonable_encoder d with
        | error e => rw [he] at h; cases h
        | ok sd =>
          rw [he] at h
          cases h
          exact ⟨rfl, rfl, ⟨_, rfl, rfl⟩⟩
  · intro hempty
    rcases hempty with h | h <;> rw [h] <;> unfold log_action
    · exact ⟨_, _, rfl, rfl⟩
    · exact ⟨_, _, rfl, rfl⟩
  · intro d e hd hne he
    rw [hd]
    unfold log_action
    have hdi : d.isEmpty = false := by
      cases d with
      | nil => exact absurd rfl hne
      | cons x l => simp
    simp [log_action, hdi, he]

/-- C10 witness: with no details dict, the record is staged with empty
details on the caller's (still uncommitted) session. -/
theorem log_action_stages_no_commit_witness :
    ∃ db' rec, log_action c10_session c10_user "create_org" "organization" "1"
      none "INFO" = .ok (db', rec) ∧ rec.details = [] :=
  (log_action_stages_no_commit c10_session c10_user "create_org" "organization" "1"
    none "INFO").2.1 (Or.inl rfl)

/-- C10 counterexample: a details dict holding a value the JSON encoder
cannot serialize makes `log_action` raise instead of recording an empty
details object. -/
theorem log_action_raises_on_unencodable :
    log_action c10_session c10_user "create_org" "organization" "1"
      (some [("obj", PyVal.unencodable)]) "INFO" = .error "Cannot encode object" := by
  decide
